import Mathlib

/-!
Verification of the client-side session state machine of the legal-petition
drafting frontend.

The repository has two deployment variants of the same session logic:

* the free-form chat page (`src/unnamed/part_000`, component `Home`), embedded
  below in namespace `ChatApp`; and
* the structured form-plus-chat workflow (`src/src/App.jsx`, component
  `PetitionChatbot`), embedded below in namespace `PetitionApp`.

Event handlers are embedded as pure functions from the component state (the
`useState` fields) and the outcome of the single awaited network call to the
new state paired with the request that was dispatched (`none` when the handler
returned before issuing a request).  JavaScript truthiness tests on strings and
nullable strings are embedded explicitly (`jsFalsyOptStr`), and `String.trim`
is embedded as `jsTrim` over the character list (dropping Unicode whitespace
from both ends, which is what both the JS and the Lean `trim` compute) so that
all definitions evaluate by kernel reduction.  Wall-clock timestamps
(`new Date()` / `setTimeout`) are outside the embedding and are omitted from
the turn records; no claim below depends on them.
-/

/-- JS `trim` on the character list: drop whitespace from both ends. -/
def trimChars (l : List Char) : List Char :=
  ((l.dropWhile Char.isWhitespace).reverse.dropWhile Char.isWhitespace).reverse

/-- Embedding of JavaScript `s.trim()`. -/
def jsTrim (s : String) : String := String.mk (trimChars s.data)

/-- JS truthiness of a nullable string: `null`/`undefined` and `""` are falsy. -/
def jsFalsyOptStr : Option String → Bool
  | none => true
  | some s => s.isEmpty

/-- Outcome of the one `fetch` inside the feedback handler.  JS `fetch` rejects
only on transport errors; a response with a non-2xx status still resolves (the
handler never reads `response.ok`). -/
inductive FeedbackTransport where
  | resolved (ok : Bool)
  | networkError
deriving Repr, DecidableEq

namespace ChatApp

/-- Turn role in the chat variant (`Message.role` in `part_000`). -/
inductive Role where
  | user
  | assistant
deriving Repr, DecidableEq

/-- The `Message` interface of `part_000`. -/
structure Message where
  role : Role
  content : String
  conversationId : Option String := none
  legalContext : Option (List String) := none
deriving Repr, DecidableEq

/-- The `useState` fields of the `Home` component. -/
structure HomeState where
  messages : List Message
  input : String
  loading : Bool
  feedbackMode : Option String
  feedbackComment : String
  showFeedbackSuccess : Bool
deriving Repr, DecidableEq

/-- Body of the POST to `/api/petition` built in `handleSubmit`. -/
structure PetitionRequest where
  message : String
  conversation_history : List Message
deriving Repr, DecidableEq

/-- Parsed JSON of a successful `/api/petition` response; `conversation_id`
and `legal_context` may be absent from the payload. -/
structure PetitionResponse where
  petition : String
  conversation_id : Option String := none
  legal_context : Option (List String) := none
deriving Repr, DecidableEq

/-- JS `arr.slice(-n)`: the last `n` elements (the whole list when shorter). -/
def jsSliceLast (n : Nat) (l : List α) : List α := l.drop (l.length - n)

/-- The fixed error message appended by `handleSubmit` on failure. -/
def submitErrorText : String :=
  "Sorry, there was an error generating your petition. Please try again."

/-- `handleSubmit` of `part_000`.  `outcome` is the result of the awaited
`fetch`: `.ok` when the response was 2xx and parsed, `.error` when the fetch
rejected or the status was non-2xx (the code throws on `!response.ok`, landing
in the same `catch`).  Returns the final state and the dispatched request
(`none` when the guard returned early). -/
def handleSubmit (s : HomeState) (outcome : Except String PetitionResponse) :
    HomeState × Option PetitionRequest :=
  if (jsTrim s.input).isEmpty || s.loading then (s, none)
  else
    let userMessage : Message := { role := .user, content := s.input }
    let s1 := { s with messages := s.messages ++ [userMessage], input := "", loading := true }
    let req : PetitionRequest :=
      { message := userMessage.content, conversation_history := jsSliceLast 10 s.messages }
    match outcome with
    | .ok data =>
        let assistantMessage : Message :=
          { role := .assistant, content := data.petition,
            conversationId := data.conversation_id, legalContext := data.legal_context }
        ({ s1 with messages := s1.messages ++ [assistantMessage], loading := false }, some req)
    | .error _ =>
        ({ s1 with
            messages := s1.messages ++ [{ role := .assistant, content := submitErrorText }],
            loading := false }, some req)

/-- Feedback rating. -/
inductive Rating where
  | up
  | down
deriving Repr, DecidableEq

/-- Body of the POST to `/api/feedback` built in `handleFeedback`;
`comment` is `feedbackComment || null`. -/
structure FeedbackRequest where
  conversation_id : Option String
  rating : Rating
  comment : Option String
  petition_text : String
deriving Repr, DecidableEq

/-- The feedback request `handleFeedback` serializes for `message` from state
`s`: `comment` is `feedbackComment || null` (empty string becomes null). -/
def feedbackRequestOf (s : HomeState) (m : Message) (r : Rating) : FeedbackRequest :=
  { conversation_id := m.conversationId, rating := r,
    comment := if s.feedbackComment.isEmpty then none else some s.feedbackComment,
    petition_text := m.content }

/-- `handleFeedback` of `part_000`.  Guard 1: a turn with a falsy
`conversationId` is ignored.  Guard 2: a `down` rating while no editor is open
(`feedbackMode` falsy) only opens the editor for this turn.  Otherwise one
request is sent; if the `fetch` resolves (regardless of status) the success
notice is shown, the editor closed and the comment buffer cleared; if it
rejects, the `catch` only logs and the state is untouched.  The `setTimeout`
that hides the notice after 3 seconds is wall-clock behaviour outside this
embedding. -/
def handleFeedback (s : HomeState) (rating : Rating) (message : Message)
    (transport : FeedbackTransport) : HomeState × Option FeedbackRequest :=
  if jsFalsyOptStr message.conversationId then (s, none)
  else if rating = .down && jsFalsyOptStr s.feedbackMode then
    ({ s with feedbackMode := message.conversationId }, none)
  else
    let req := feedbackRequestOf s message rating
    match transport with
    | .networkError => (s, some req)
    | .resolved _ =>
        ({ s with showFeedbackSuccess := true, feedbackMode := none, feedbackComment := "" },
          some req)

end ChatApp

namespace PetitionApp

/-- Turn classification in the structured variant (`msg.type` in `App.jsx`):
the code appends `user`, `assistant`, `system`, `warning` and `error` turns. -/
inductive MsgType where
  | user
  | assistant
  | system
  | warning
  | error
deriving Repr, DecidableEq

/-- A chat-panel message of `App.jsx` (its `timestamp : new Date()` field is
wall-clock and omitted from the embedding). -/
structure SMessage where
  type : MsgType
  content : String
deriving Repr, DecidableEq

/-- `caseData.parties` in `App.jsx`. -/
structure Parties where
  petitioner : String
  respondent : String
deriving Repr, DecidableEq

/-- The `caseData` state object of `App.jsx`; it is also the request body of
`POST /petitions/generate`. -/
structure CaseData where
  case_type : String
  jurisdiction : String
  facts : String
  parties : Parties
  prayers : String
  annexures : List String
deriving Repr, DecidableEq

/-- One entry of `draft.validation.checks` (statuses arrive as the strings
`pass` / `warn` / `fail`). -/
structure Check where
  check_name : String
  status : String
  message : String
deriving Repr, DecidableEq

/-- `draft.validation`: overall score in `[0,1]` plus per-check results. -/
structure Validation where
  overall_score : ℚ
  checks : List Check
deriving Repr, DecidableEq

/-- One generated petition section; the backend exposes the title under any of
`section_name`, `title` or `label`, and the body under `content` or `text`. -/
structure DraftSection where
  section_name : Option String := none
  title : Option String := none
  label : Option String := none
  content : Option String := none
  text : Option String := none
deriving Repr, DecidableEq

/-- One provenance/citation record of the draft (`source.section` is named
`sectionRef` here because `section` is a Lean keyword). -/
structure Provenance where
  source_title : String
  sectionRef : String
  page_num : Nat
  similarity_score : ℚ
  text_excerpt : String
deriving Repr, DecidableEq

/-- The draft object returned by `POST /petitions/generate` and held in the
`currentDraft` state. -/
structure Draft where
  draft_id : String
  sections : List DraftSection
  validation : Validation
  provenance : List Provenance
  coverage_score : ℚ
  template_version : String
  created_at : String
deriving Repr, DecidableEq

/-- Response payload of `POST /chat`. -/
structure ChatResponse where
  response : String
  session_id : String
deriving Repr, DecidableEq

/-- Body of the `POST /chat` request built in `handleSendMessage`. -/
structure ChatRequest where
  message : String
  session_id : Option String
deriving Repr, DecidableEq

/-- Response payload of `POST /petitions/id/finalize`. -/
structure FinalizeResult where
  draft_id : String
  status : String
deriving Repr, DecidableEq

/-- Body of the finalize request built in `handleFinalize`. -/
structure FinalizeRequest where
  draft_id : String
  approver_name : String
  approver_id : String
  notes : String
deriving Repr, DecidableEq

/-- The `useState` fields of the `PetitionChatbot` component that the session
logic reads or writes (`systemStatus` is kept as the raw health `status`
string). -/
structure AppState where
  systemStatus : Option String
  loading : Bool
  messages : List SMessage
  input : String
  sessionId : Option String
  currentDraft : Option Draft
  showDraft : Bool
  templates : List String
  caseData : CaseData
deriving Repr, DecidableEq

/-- `addSystemMessage(content, type)` of `App.jsx` as a state transformer. -/
def addSystemMessage (s : AppState) (content : String) (type : MsgType) : AppState :=
  { s with messages := s.messages ++ [{ type := type, content := content }] }

/-- The fixed error turn content appended by `handleSendMessage` on failure. -/
def chatErrorText : String := "Failed to get response. Please try again."

/-- `handleSendMessage` of `App.jsx`.  `API.chat` throws both on transport
errors and on non-2xx statuses, so `.error` covers both.  Returns the final
state and the dispatched `/chat` request (`none` when the guard returned
early). -/
def handleSendMessage (s : AppState) (outcome : Except String ChatResponse) :
    AppState × Option ChatRequest :=
  if (jsTrim s.input).isEmpty || s.loading then (s, none)
  else
    let userMessage : SMessage := { type := .user, content := s.input }
    let s1 := { s with messages := s.messages ++ [userMessage], input := "", loading := true }
    let req : ChatRequest := { message := s.input, session_id := s.sessionId }
    match outcome with
    | .ok r =>
        let s2 := if jsFalsyOptStr s1.sessionId then { s1 with sessionId := some r.session_id }
                  else s1
        ({ s2 with messages := s2.messages ++ [{ type := .assistant, content := r.response }],
                   loading := false }, some req)
    | .error _ =>
        ({ s1 with messages := s1.messages ++ [{ type := .error, content := chatErrorText }],
                   loading := false }, some req)

/-- `handleGeneratePetition` of `App.jsx`.  Empty or whitespace-only facts
`alert` and return before any request; otherwise the request body is
`caseData` itself.  On success the draft replaces `currentDraft` wholesale; on
failure only an error turn is appended and the previous draft is kept. -/
def handleGeneratePetition (s : AppState) (outcome : Except String Draft) :
    AppState × Option CaseData :=
  if (jsTrim s.caseData.facts).isEmpty then (s, none)
  else
    let s1 := addSystemMessage { s with loading := true }
      "Generating petition... This may take 30-60 seconds." .system
    match outcome with
    | .ok draft =>
        ({ addSystemMessage s1
             "✓ Petition draft generated successfully! Review the draft and validation results below."
             .system with
           currentDraft := some draft, showDraft := true, loading := false }, some s.caseData)
    | .error msg =>
        ({ addSystemMessage s1 ("Error generating petition: " ++ msg) .error with
           loading := false }, some s.caseData)

/-- `handleFinalize` of `App.jsx`.  `approverName` / `approverId` are the
results of the two `prompt` dialogs (`none` on cancel); the guard
`!approverName || !approverId` rejects null and empty answers before any
request.  On success a system turn records the approval; on failure only an
`alert` is shown. -/
def handleFinalize (s : AppState) (approverName approverId : Option String)
    (outcome : Except String FinalizeResult) : AppState × Option FinalizeRequest :=
  match s.currentDraft with
  | none => (s, none)
  | some draft =>
    if jsFalsyOptStr approverName || jsFalsyOptStr approverId then (s, none)
    else
      let name := approverName.getD ""
      let barId := approverId.getD ""
      let req : FinalizeRequest :=
        { draft_id := draft.draft_id, approver_name := name, approver_id := barId,
          notes := "Approved for filing" }
      let s1 := { s with loading := true }
      match outcome with
      | .ok _ =>
          ({ addSystemMessage s1 ("Petition finalized by " ++ name ++ " (" ++ barId ++ ")")
               .system with loading := false }, some req)
      | .error _ => ({ s1 with loading := false }, some req)

/-- Display tier of a validation score. -/
inductive Tier where
  | pass
  | warn
  | fail
deriving Repr, DecidableEq

/-- The validation-score tier classification of the draft preview
(`currentDraft.validation.overall_score >= 0.9` selects the green pass styling,
`>= 0.75` the yellow warn styling, anything else the red fail styling). -/
def validationTier (score : ℚ) : Tier :=
  if score ≥ 0.9 then .pass
  else if score ≥ 0.75 then .warn
  else .fail

end PetitionApp

/-! Helper lemmas about the embedded JS truthiness tests. -/

theorem isEmpty_eq_false_of_ne {c : String} (h : c ≠ "") : c.isEmpty = false := by
  cases he : c.isEmpty
  · rfl
  · exact absurd ((String.isEmpty_iff c).mp he) h

theorem jsFalsyOptStr_some_eq_false {c : String} (h : c ≠ "") :
    jsFalsyOptStr (some c) = false :=
  isEmpty_eq_false_of_ne h

theorem submitGuard_eq_true {inp : String} {b : Bool}
    (h : jsTrim inp = "" ∨ b = true) : ((jsTrim inp).isEmpty || b) = true := by
  rcases h with h | h
  · rw [h]; rfl
  · rw [h, Bool.or_true]

theorem submitGuard_eq_false {inp : String} {b : Bool}
    (h1 : ¬ jsTrim inp = "") (h2 : b = false) :
    ((jsTrim inp).isEmpty || b) = false := by
  rw [h2, Bool.or_false]
  exact isEmpty_eq_false_of_ne h1

/-- A concrete structured-variant case-data record for witnesses. -/
def sampleCaseData : PetitionApp.CaseData :=
  { case_type := "civil_revision", jurisdiction := "Lahore High Court", facts := "",
    parties := { petitioner := "", respondent := "" }, prayers := "", annexures := [] }

/-- A concrete structured-variant base state for witnesses. -/
def sampleAppState : PetitionApp.AppState :=
  { systemStatus := none, loading := false, messages := [], input := "", sessionId := none,
    currentDraft := none, showDraft := false, templates := [], caseData := sampleCaseData }

/-- A concrete chat-variant base state for witnesses. -/
def sampleHomeState : ChatApp.HomeState :=
  { messages := [], input := "", loading := false, feedbackMode := none,
    feedbackComment := "", showFeedbackSuccess := false }

/-- C1: a submission with empty or whitespace-only text, or while a prior
generation request is in flight (busy flag set), is a no-op in both variants:
the state (so in particular the turn history) is unchanged and no request is
dispatched. -/
theorem C1_submit_gating
    (s : ChatApp.HomeState) (o : Except String ChatApp.PetitionResponse)
    (t : PetitionApp.AppState) (o2 : Except String PetitionApp.ChatResponse)
    (hs : jsTrim s.input = "" ∨ s.loading = true)
    (ht : jsTrim t.input = "" ∨ t.loading = true) :
    ChatApp.handleSubmit s o = (s, none) ∧
    PetitionApp.handleSendMessage t o2 = (t, none) := by
  constructor
  · simp [ChatApp.handleSubmit, submitGuard_eq_true hs]
  · simp [PetitionApp.handleSendMessage, submitGuard_eq_true ht]

theorem C1_submit_gating_witness :
    ChatApp.handleSubmit { sampleHomeState with input := "   " } (.error "down") =
      ({ sampleHomeState with input := "   " }, none) ∧
    PetitionApp.handleSendMessage { sampleAppState with input := "hello", loading := true }
      (.error "down") =
      ({ sampleAppState with input := "hello", loading := true }, none) :=
  C1_submit_gating _ _ _ _ (Or.inl (by decide)) (Or.inr rfl)

/-- C2 counterexample: in the structured variant the `/chat` response always
supplies a `session_id`, yet the appended assistant turn never carries it.
Starting from an idle state with input `hello`, two successful calls whose
responses differ only in the supplied `session_id` (`s1` versus `s2`) produce
identical turn histories, and the appended assistant turn is the bare record
`{type := assistant, content := "hi"}` — so the turn cannot be carrying the
response's sessionRef, refuting the claim that the assistant turn carries the
sessionRef whenever the response supplies it. -/
theorem C2_sessionref_counterexample :
    (PetitionApp.handleSendMessage { sampleAppState with input := "hello" }
        (.ok { response := "hi", session_id := "s1" })).1.messages =
      (PetitionApp.handleSendMessage { sampleAppState with input := "hello" }
        (.ok { response := "hi", session_id := "s2" })).1.messages ∧
    (PetitionApp.handleSendMessage { sampleAppState with input := "hello" }
        (.ok { response := "hi", session_id := "s1" })).1.messages =
      [{ type := .user, content := "hello" },
       { type := .assistant, content := "hi" }] := by
  constructor
  · decide
  · decide

/-- C2 amended: a non-empty submission while not busy whose drafting call
succeeds appends exactly two turns — the optimistic user turn then the
assistant turn, in that order.  In the chat variant the assistant turn
carries the response payload's `conversation_id` and `legal_context` verbatim
(so whenever the response supplies them the turn carries them).  In the
structured variant the assistant turn carries only the response text; the
supplied `session_id` is not attached to the turn but stored on the session
when no session ref was held yet. -/
theorem C2_success_two_turns
    (s : ChatApp.HomeState) (r : ChatApp.PetitionResponse)
    (t : PetitionApp.AppState) (r2 : PetitionApp.ChatResponse)
    (hs1 : ¬ jsTrim s.input = "") (hs2 : s.loading = false)
    (ht1 : ¬ jsTrim t.input = "") (ht2 : t.loading = false) :
    ChatApp.handleSubmit s (.ok r) =
      ({ s with
          messages := s.messages ++
            [{ role := .user, content := s.input },
             { role := .assistant, content := r.petition,
               conversationId := r.conversation_id, legalContext := r.legal_context }],
          input := "", loading := false },
        some { message := s.input,
               conversation_history := ChatApp.jsSliceLast 10 s.messages }) ∧
    (PetitionApp.handleSendMessage t (.ok r2)).1.messages =
      t.messages ++
        [{ type := .user, content := t.input },
         { type := .assistant, content := r2.response }] ∧
    (jsFalsyOptStr t.sessionId = true →
      (PetitionApp.handleSendMessage t (.ok r2)).1.sessionId = some r2.session_id) := by
  refine ⟨?_, ?_, ?_⟩
  · simp [ChatApp.handleSubmit, submitGuard_eq_false hs1 hs2]
  · cases hf : jsFalsyOptStr t.sessionId <;>
      simp [PetitionApp.handleSendMessage, submitGuard_eq_false ht1 ht2, hf]
  · intro hf
    simp [PetitionApp.handleSendMessage, submitGuard_eq_false ht1 ht2, hf]

theorem C2_success_two_turns_witness :
    ChatApp.handleSubmit { sampleHomeState with input := "draft a petition" }
      (.ok { petition := "PETITION...", conversation_id := some "abc123",
             legal_context := some ["Section 42 of the Specific Relief Act"] }) =
      ({ sampleHomeState with
          messages :=
            [{ role := .user, content := "draft a petition" },
             { role := .assistant, content := "PETITION...",
               conversationId := some "abc123",
               legalContext := some ["Section 42 of the Specific Relief Act"] }] },
        some { message := "draft a petition", conversation_history := [] }) ∧
    (PetitionApp.handleSendMessage { sampleAppState with input := "hello" }
      (.ok { response := "hi", session_id := "s1" })).1.messages =
      [{ type := .user, content := "hello" }, { type := .assistant, content := "hi" }] ∧
    (jsFalsyOptStr (sampleAppState.sessionId) = true →
      (PetitionApp.handleSendMessage { sampleAppState with input := "hello" }
        (.ok { response := "hi", session_id := "s1" })).1.sessionId = some "s1") :=
  C2_success_two_turns _ _ _ _ (by decide) rfl (by decide) rfl

/-- C3 counterexample: in the structured variant a failed chat call appends an
error-role turn, not an assistant-role turn.  Starting from an idle state with
input `hello`, the failed submission leaves turn roles `[user, error]`, and
`error` is a different role from `assistant` — refuting the claim that the
synthetic failure turn is assistant-role in every variant. -/
theorem C3_failure_turn_counterexample :
    (PetitionApp.handleSendMessage { sampleAppState with input := "hello" }
        (.error "boom")).1.messages.map PetitionApp.SMessage.type =
      [.user, .error] ∧
    (PetitionApp.MsgType.error ≠ PetitionApp.MsgType.assistant) := by
  constructor
  · decide
  · decide

/-- C3 amended: a non-empty submission while not busy whose drafting call
fails appends exactly two turns — the user turn and a fixed-content error turn
that carries no `sessionRef` — with the error turn assistant-role in the chat
variant but error-role in the structured variant; the session's stored
`sessionId` is unchanged and both handlers return normally (the failure is
swallowed at the controller boundary). -/
theorem C3_failure_two_turns
    (s : ChatApp.HomeState) (e : String)
    (t : PetitionApp.AppState) (e2 : String)
    (hs1 : ¬ jsTrim s.input = "") (hs2 : s.loading = false)
    (ht1 : ¬ jsTrim t.input = "") (ht2 : t.loading = false) :
    ChatApp.handleSubmit s (.error e) =
      ({ s with
          messages := s.messages ++
            [{ role := .user, content := s.input },
             { role := .assistant, content := ChatApp.submitErrorText,
               conversationId := none, legalContext := none }],
          input := "", loading := false },
        some { message := s.input,
               conversation_history := ChatApp.jsSliceLast 10 s.messages }) ∧
    PetitionApp.handleSendMessage t (.error e2) =
      ({ t with
          messages := t.messages ++
            [{ type := .user, content := t.input },
             { type := .error, content := PetitionApp.chatErrorText }],
          input := "", loading := false },
        some { message := t.input, session_id := t.sessionId }) := by
  constructor
  · simp [ChatApp.handleSubmit, submitGuard_eq_false hs1 hs2]
  · simp [PetitionApp.handleSendMessage, submitGuard_eq_false ht1 ht2]

theorem C3_failure_two_turns_witness :
    ChatApp.handleSubmit { sampleHomeState with input := "draft a petition" } (.error "net") =
      ({ sampleHomeState with
          messages :=
            [{ role := .user, content := "draft a petition" },
             { role := .assistant, content := ChatApp.submitErrorText,
               conversationId := none, legalContext := none }] },
        some { message := "draft a petition", conversation_history := [] }) ∧
    PetitionApp.handleSendMessage { sampleAppState with input := "hello" } (.error "net") =
      ({ sampleAppState with
          messages :=
            [{ type := .user, content := "hello" },
             { type := .error, content := PetitionApp.chatErrorText }] },
        some { message := "hello", session_id := none }) :=
  C3_failure_two_turns _ _ _ _ (by decide) rfl (by decide) rfl


/-- C4 counterexample: with the comment editor open for turn A
(`feedbackMode = some "A"`), a down rating on a different turn B
(`conversationId = some "B"`) does not open the editor for B — the handler
takes the submit branch, so the editor never switches to B and a feedback
request is dispatched immediately (refuting the claim that the rating only
moves the open editor to B with no request issued). -/
theorem C4_switch_editor_counterexample :
    (ChatApp.handleFeedback
        { messages := [], input := "", loading := false, feedbackMode := some "A",
          feedbackComment := "partial comment", showFeedbackSuccess := false }
        .down
        { role := .assistant, content := "PETITION B", conversationId := some "B",
          legalContext := none }
        (.resolved true)).1.feedbackMode ≠ some "B" ∧
    (ChatApp.handleFeedback
        { messages := [], input := "", loading := false, feedbackMode := some "A",
          feedbackComment := "partial comment", showFeedbackSuccess := false }
        .down
        { role := .assistant, content := "PETITION B", conversationId := some "B",
          legalContext := none }
        (.resolved true)).2 ≠ none := by
  constructor
  · decide
  · decide

/-- C4 amended: while the comment editor is open for turn A, a down rating on
a different turn B never opens B's editor.  Instead the handler immediately
dispatches exactly one feedback request — keyed by B's sessionRef, so no
feedback is submitted for A — carrying the current comment buffer; when the
request resolves, the open editor is closed and the comment buffer cleared,
and on a transport error the state is left unchanged. -/
theorem C4_down_while_other_editor_open
    (s : ChatApp.HomeState) (m : ChatApp.Message) (a c : String) (b : Bool)
    (hA : s.feedbackMode = some a) (ha : a ≠ "")
    (hc : m.conversationId = some c) (hcne : c ≠ "") (hdiff : a ≠ c) :
    ChatApp.handleFeedback s .down m (.resolved b) =
      ({ s with showFeedbackSuccess := true, feedbackMode := none, feedbackComment := "" },
        some (ChatApp.feedbackRequestOf s m .down)) ∧
    ChatApp.handleFeedback s .down m .networkError =
      (s, some (ChatApp.feedbackRequestOf s m .down)) ∧
    (ChatApp.feedbackRequestOf s m .down).conversation_id = some c ∧
    (ChatApp.feedbackRequestOf s m .down).conversation_id ≠ some a := by
  have hfm : jsFalsyOptStr s.feedbackMode = false := by
    rw [hA]; exact jsFalsyOptStr_some_eq_false ha
  have hcm : jsFalsyOptStr m.conversationId = false := by
    rw [hc]; exact jsFalsyOptStr_some_eq_false hcne
  refine ⟨?_, ?_, ?_, ?_⟩
  · simp [ChatApp.handleFeedback, hfm, hcm]
  · simp [ChatApp.handleFeedback, hfm, hcm]
  · simp [ChatApp.feedbackRequestOf, hc]
  · simp [ChatApp.feedbackRequestOf, hc]
    exact fun hh => hdiff hh.symm

theorem C4_down_while_other_editor_open_witness :
    ChatApp.handleFeedback
        { messages := [], input := "", loading := false, feedbackMode := some "A",
          feedbackComment := "partial comment", showFeedbackSuccess := false }
        .down
        { role := .assistant, content := "PETITION B", conversationId := some "B",
          legalContext := none }
        (.resolved false) =
      ({ messages := [], input := "", loading := false, feedbackMode := none,
         feedbackComment := "", showFeedbackSuccess := true },
        some { conversation_id := some "B", rating := .down,
               comment := some "partial comment", petition_text := "PETITION B" }) ∧
    ChatApp.handleFeedback
        { messages := [], input := "", loading := false, feedbackMode := some "A",
          feedbackComment := "partial comment", showFeedbackSuccess := false }
        .down
        { role := .assistant, content := "PETITION B", conversationId := some "B",
          legalContext := none }
        .networkError =
      ({ messages := [], input := "", loading := false, feedbackMode := some "A",
         feedbackComment := "partial comment", showFeedbackSuccess := false },
        some { conversation_id := some "B", rating := .down,
               comment := some "partial comment", petition_text := "PETITION B" }) ∧
    (ChatApp.feedbackRequestOf
        { messages := [], input := "", loading := false, feedbackMode := some "A",
          feedbackComment := "partial comment", showFeedbackSuccess := false }
        { role := .assistant, content := "PETITION B", conversationId := some "B",
          legalContext := none }
        .down).conversation_id = some "B" ∧
    (ChatApp.feedbackRequestOf
        { messages := [], input := "", loading := false, feedbackMode := some "A",
          feedbackComment := "partial comment", showFeedbackSuccess := false }
        { role := .assistant, content := "PETITION B", conversationId := some "B",
          legalContext := none }
        .down).conversation_id ≠ some "A" :=
  C4_down_while_other_editor_open _ _ "A" "B" false rfl (by decide) rfl (by decide) (by decide)

/-- C5: for an assistant turn with a (truthy) sessionRef, a down rating while
no editor is open only opens the editor for that turn and dispatches no
request; a down rating while that exact turn's editor is open dispatches
exactly one feedback request carrying the sessionRef, the rating, the comment
buffer (an empty comment is sent as null) and the turn content, and — once the
request resolves — closes the editor and clears the comment buffer. -/
theorem C5_down_rating_two_step
    (s1 s2 : ChatApp.HomeState) (m : ChatApp.Message) (c : String) (b : Bool)
    (hc : m.conversationId = some c) (hcne : c ≠ "")
    (h1 : s1.feedbackMode = none) (h2 : s2.feedbackMode = some c) :
    (∀ tr : FeedbackTransport,
      ChatApp.handleFeedback s1 .down m tr = ({ s1 with feedbackMode := some c }, none)) ∧
    ChatApp.handleFeedback s2 .down m (.resolved b) =
      ({ s2 with showFeedbackSuccess := true, feedbackMode := none, feedbackComment := "" },
        some { conversation_id := some c, rating := .down,
               comment := if s2.feedbackComment.isEmpty then none
                          else some s2.feedbackComment,
               petition_text := m.content }) := by
  have hcm : c.isEmpty = false := isEmpty_eq_false_of_ne hcne
  constructor
  · intro tr
    simp [ChatApp.handleFeedback, jsFalsyOptStr, hc, h1, hcm]
  · simp [ChatApp.handleFeedback, jsFalsyOptStr, hc, h2, hcm, ChatApp.feedbackRequestOf]

theorem C5_down_rating_two_step_witness :
    (∀ tr : FeedbackTransport,
      ChatApp.handleFeedback
        { messages := [], input := "", loading := false, feedbackMode := none,
          feedbackComment := "", showFeedbackSuccess := false }
        .down
        { role := .assistant, content := "PETITION", conversationId := some "abc123",
          legalContext := none }
        tr =
      ({ messages := [], input := "", loading := false, feedbackMode := some "abc123",
         feedbackComment := "", showFeedbackSuccess := false }, none)) ∧
    ChatApp.handleFeedback
        { messages := [], input := "", loading := false, feedbackMode := some "abc123",
          feedbackComment := "too short", showFeedbackSuccess := false }
        .down
        { role := .assistant, content := "PETITION", conversationId := some "abc123",
          legalContext := none }
        (.resolved true) =
      ({ messages := [], input := "", loading := false, feedbackMode := none,
         feedbackComment := "", showFeedbackSuccess := true },
        some { conversation_id := some "abc123", rating := .down,
               comment := some "too short", petition_text := "PETITION" }) :=
  C5_down_rating_two_step _ _ _ "abc123" true rfl (by decide) rfl rfl

/-- C6 counterexample: a feedback submission answered with a non-2xx status is
claimed to leave the editor open, keep the comment buffer and show no success
notice; the code never inspects the response status, so such a submission is
handled as a success — the notice is shown, the editor is closed and the
comment buffer is cleared. -/
theorem C6_non2xx_counterexample :
    (ChatApp.handleFeedback
        { messages := [], input := "", loading := false, feedbackMode := some "abc",
          feedbackComment := "needs work", showFeedbackSuccess := false }
        .down
        { role := .assistant, content := "PETITION", conversationId := some "abc",
          legalContext := none }
        (.resolved false)).1 =
      { messages := [], input := "", loading := false, feedbackMode := none,
        feedbackComment := "", showFeedbackSuccess := true } := by
  decide

/-- C6 amended: only a transport error (rejected fetch) behaves as a failure
for feedback submission: the error is just logged, no retry happens, no
success notice appears, and the editor state and comment buffer are left
exactly as they were.  A non-2xx response status is never detected — the fetch
resolves, so the handler runs the success path: notice shown, editor closed,
comment buffer cleared. -/
theorem C6_feedback_failure_policy
    (s : ChatApp.HomeState) (m : ChatApp.Message) (r : ChatApp.Rating) (c : String)
    (hc : m.conversationId = some c) (hcne : c ≠ "")
    (hsub : r = .up ∨ jsFalsyOptStr s.feedbackMode = false) :
    ChatApp.handleFeedback s r m .networkError =
      (s, some (ChatApp.feedbackRequestOf s m r)) ∧
    (∀ ok : Bool,
      ChatApp.handleFeedback s r m (.resolved ok) =
        ({ s with showFeedbackSuccess := true, feedbackMode := none, feedbackComment := "" },
          some (ChatApp.feedbackRequestOf s m r))) := by
  have hcm : jsFalsyOptStr m.conversationId = false := by
    rw [hc]; exact jsFalsyOptStr_some_eq_false hcne
  have hguard : (r = ChatApp.Rating.down && jsFalsyOptStr s.feedbackMode) = false := by
    rcases hsub with h | h
    · subst h; rfl
    · rw [h, Bool.and_false]
  constructor
  · simp [ChatApp.handleFeedback, hcm, hguard]
  · intro ok
    simp [ChatApp.handleFeedback, hcm, hguard]

theorem C6_feedback_failure_policy_witness :
    ChatApp.handleFeedback
        { messages := [], input := "", loading := false, feedbackMode := some "abc",
          feedbackComment := "needs work", showFeedbackSuccess := false }
        .down
        { role := .assistant, content := "PETITION", conversationId := some "abc",
          legalContext := none }
        .networkError =
      ({ messages := [], input := "", loading := false, feedbackMode := some "abc",
         feedbackComment := "needs work", showFeedbackSuccess := false },
        some { conversation_id := some "abc", rating := .down,
               comment := some "needs work", petition_text := "PETITION" }) ∧
    (∀ ok : Bool,
      ChatApp.handleFeedback
          { messages := [], input := "", loading := false, feedbackMode := some "abc",
            feedbackComment := "needs work", showFeedbackSuccess := false }
          .down
          { role := .assistant, content := "PETITION", conversationId := some "abc",
            legalContext := none }
          (.resolved ok) =
        ({ messages := [], input := "", loading := false, feedbackMode := none,
           feedbackComment := "", showFeedbackSuccess := true },
          some { conversation_id := some "abc", rating := .down,
                 comment := some "needs work", petition_text := "PETITION" })) :=
  C6_feedback_failure_policy _ _ .down "abc" rfl (by decide) (Or.inr (by decide))

/-- C7: the displayed validation tier is pass for overallScore at least 0.90,
warn for scores in [0.75, 0.90), and fail below 0.75; both 0.90 and 0.75 are
inclusive lower boundaries of their tiers (0.95 passes, 0.80 warns, 0.50
fails, 0.90 passes, 0.75 warns). -/
theorem C7_validation_tier (q : ℚ) :
    (PetitionApp.validationTier q = .pass ↔ (0.9:ℚ) ≤ q) ∧
    (PetitionApp.validationTier q = .warn ↔ (0.75:ℚ) ≤ q ∧ q < (0.9:ℚ)) ∧
    (PetitionApp.validationTier q = .fail ↔ q < (0.75:ℚ)) ∧
    PetitionApp.validationTier 0.95 = .pass ∧
    PetitionApp.validationTier 0.80 = .warn ∧
    PetitionApp.validationTier 0.50 = .fail ∧
    PetitionApp.validationTier 0.90 = .pass ∧
    PetitionApp.validationTier 0.75 = .warn := by
  refine ⟨?_, ?_, ?_, by norm_num [PetitionApp.validationTier],
    by norm_num [PetitionApp.validationTier], by norm_num [PetitionApp.validationTier],
    by norm_num [PetitionApp.validationTier], by norm_num [PetitionApp.validationTier]⟩
  all_goals unfold PetitionApp.validationTier
  all_goals split_ifs with h1 h2
  all_goals simp_all
  all_goals linarith

/-- A concrete draft object for witnesses. -/
def sampleDraft : PetitionApp.Draft :=
  { draft_id := "draft-1", sections := [],
    validation := { overall_score := 0.95, checks := [] },
    provenance := [], coverage_score := 0.8, template_version := "v1",
    created_at := "2025-01-01T00:00:00Z" }

/-- C8: every client-side validation failure short-circuits before any request
is dispatched and leaves the whole session state unchanged: generating with
empty or whitespace-only facts issues no request and keeps any held draft, and
finalizing with a missing (cancelled or empty) approver name or bar ID issues
no request and keeps the draft. -/
theorem C8_validation_short_circuit
    (s : PetitionApp.AppState) (o : Except String PetitionApp.Draft)
    (t : PetitionApp.AppState) (nameOpt barOpt : Option String)
    (o2 : Except String PetitionApp.FinalizeResult)
    (hs : jsTrim s.caseData.facts = "")
    (ht : jsFalsyOptStr nameOpt = true ∨ jsFalsyOptStr barOpt = true) :
    PetitionApp.handleGeneratePetition s o = (s, none) ∧
    PetitionApp.handleFinalize t nameOpt barOpt o2 = (t, none) := by
  constructor
  · have hfacts : (jsTrim s.caseData.facts).isEmpty = true := by rw [hs]; rfl
    simp [PetitionApp.handleGeneratePetition, hfacts]
  · have hg : (jsFalsyOptStr nameOpt || jsFalsyOptStr barOpt) = true := by
      rcases ht with h | h
      · rw [h, Bool.true_or]
      · rw [h, Bool.or_true]
    cases hd : t.currentDraft with
    | none => simp [PetitionApp.handleFinalize, hd]
    | some d => simp [PetitionApp.handleFinalize, hd, hg]

theorem C8_validation_short_circuit_witness :
    PetitionApp.handleGeneratePetition
        { sampleAppState with caseData := { sampleCaseData with facts := "   " } }
        (.error "unreachable") =
      ({ sampleAppState with caseData := { sampleCaseData with facts := "   " } }, none) ∧
    PetitionApp.handleFinalize
        { sampleAppState with currentDraft := some sampleDraft }
        (some "Alice Advocate") none (.error "unreachable") =
      ({ sampleAppState with currentDraft := some sampleDraft }, none) :=
  C8_validation_short_circuit _ _ _ _ _ _ (by decide) (Or.inr rfl)

/-- C9: every dispatched chat-variant drafting request carries the full
submitted text as `message`, and as context exactly the trailing window of the
pre-submission history — JS `messages.slice(-10)` — which has at most 10 turns
and is a suffix of the history from before the optimistic user turn was
appended (so that turn is not part of the window). -/
theorem C9_context_window
    (s : ChatApp.HomeState) (o : Except String ChatApp.PetitionResponse)
    (h1 : ¬ jsTrim s.input = "") (h2 : s.loading = false) :
    (ChatApp.handleSubmit s o).2 =
      some { message := s.input,
             conversation_history := ChatApp.jsSliceLast 10 s.messages } ∧
    (ChatApp.jsSliceLast 10 s.messages).length ≤ 10 ∧
    ChatApp.jsSliceLast 10 s.messages <:+ s.messages := by
  refine ⟨?_, ?_, List.drop_suffix _ _⟩
  · cases o <;> simp [ChatApp.handleSubmit, submitGuard_eq_false h1 h2]
  · simp only [ChatApp.jsSliceLast, List.length_drop]
    omega

theorem C9_context_window_witness :
    (ChatApp.handleSubmit
        { sampleHomeState with
          input := "add a prayer section",
          messages := [{ role := .user, content := "m1" },
            { role := .assistant, content := "m2" }] }
        (.error "net")).2 =
      some { message := "add a prayer section",
             conversation_history := ChatApp.jsSliceLast 10
               [{ role := .user, content := "m1" },
                { role := .assistant, content := "m2" }] } ∧
    (ChatApp.jsSliceLast 10
        ([{ role := .user, content := "m1" },
          { role := .assistant, content := "m2" }] : List ChatApp.Message)).length ≤ 10 ∧
    ChatApp.jsSliceLast 10
        ([{ role := .user, content := "m1" },
          { role := .assistant, content := "m2" }] : List ChatApp.Message) <:+
      [{ role := .user, content := "m1" }, { role := .assistant, content := "m2" }] :=
  C9_context_window _ _ (by decide) rfl

/-- C10: rating a turn that has no sessionRef (for example the synthetic error
turn appended when generation fails) is a complete no-op for either rating and
any transport outcome: no feedback request is dispatched, no editor opens, and
the session state is unchanged. -/
theorem C10_rate_without_ref_noop
    (s : ChatApp.HomeState) (r : ChatApp.Rating) (m : ChatApp.Message)
    (tr : FeedbackTransport) (h : m.conversationId = none) :
    ChatApp.handleFeedback s r m tr = (s, none) := by
  simp [ChatApp.handleFeedback, h, jsFalsyOptStr]

theorem C10_rate_without_ref_noop_witness :
    ChatApp.handleFeedback
        { sampleHomeState with
          messages := [{ role := .user, content := "draft a petition" },
            { role := .assistant, content := ChatApp.submitErrorText }] }
        .down
        { role := .assistant, content := ChatApp.submitErrorText, conversationId := none,
          legalContext := none }
        (.resolved true) =
      ({ sampleHomeState with
          messages := [{ role := .user, content := "draft a petition" },
            { role := .assistant, content := ChatApp.submitErrorText }] }, none) :=
  C10_rate_without_ref_noop _ _ _ _ rfl
